import Mathlib

/-!
Verification of the AI-Powered Personalized Learning Assistant.

The repository ships a React frontend (`src/frontend`, `src/unnamed`) that
talks to a FastAPI backend.  The backend's analysis core (classifier, gap
identifier, recommendation engine, study-plan builder) is documented in
`src/frontend/README.md` and in the specification but its source is not part
of the repository snapshot, so those components are modelled from the spec;
the frontend functions (`api.js`, `Login.jsx`, the chatbot widget, the
dashboard) are embedded directly from their JavaScript source.

Scores are modelled as rationals (`ℚ`): the JavaScript/Python floats in play
are small decimals for which rational arithmetic is exact.
-/

namespace LearningAssistant

/-- The five ordered performance levels (spec §3, README "Performance
Categories"). -/
inductive PerformanceLevel
  | Poor
  | BelowAverage
  | Average
  | Good
  | Excellent
deriving DecidableEq, Repr

open PerformanceLevel

/-- Modelled from the spec: the composite score `S = 0.6*quiz_score +
0.4*attendance` of §4.2 (the backend classifier source is absent from the
snapshot; only the README documents it). -/
def compositeScore (quiz_score attendance : ℚ) : ℚ :=
  (6 / 10) * quiz_score + (4 / 10) * attendance

/-- Modelled from the spec: the threshold table of §4.2 / README
("Excellent ≥ 80, Good 70–79, Average 60–69, Below Average 50–59,
Poor < 50"), with bucket edges closed on the lower bound. -/
def classifyLevel (S : ℚ) : PerformanceLevel :=
  if 80 ≤ S then Excellent
  else if 70 ≤ S then Good
  else if 60 ≤ S then Average
  else if 50 ≤ S then BelowAverage
  else Poor

/-- The level the classifier assigns to raw inputs. -/
def classifyLevelOf (quiz_score attendance : ℚ) : PerformanceLevel :=
  classifyLevel (compositeScore quiz_score attendance)

lemma classifyLevel_eq_excellent_iff (S : ℚ) :
    classifyLevel S = Excellent ↔ 80 ≤ S := by
  unfold classifyLevel
  split_ifs with h1 h2 h3 h4 <;> constructor <;> intro h <;>
    first
      | rfl
      | linarith
      | exact ⟨by linarith, by linarith⟩
      | (exfalso; rcases h with ⟨h5, h6⟩; linarith)
      | (exfalso; linarith)
      | simp at h

lemma classifyLevel_eq_good_iff (S : ℚ) :
    classifyLevel S = Good ↔ 70 ≤ S ∧ S < 80 := by
  unfold classifyLevel
  split_ifs with h1 h2 h3 h4 <;> constructor <;> intro h <;>
    first
      | rfl
      | linarith
      | exact ⟨by linarith, by linarith⟩
      | (exfalso; rcases h with ⟨h5, h6⟩; linarith)
      | (exfalso; linarith)
      | simp at h

lemma classifyLevel_eq_average_iff (S : ℚ) :
    classifyLevel S = Average ↔ 60 ≤ S ∧ S < 70 := by
  unfold classifyLevel
  split_ifs with h1 h2 h3 h4 <;> constructor <;> intro h <;>
    first
      | rfl
      | linarith
      | exact ⟨by linarith, by linarith⟩
      | (exfalso; rcases h with ⟨h5, h6⟩; linarith)
      | (exfalso; linarith)
      | simp at h

lemma classifyLevel_eq_belowAverage_iff (S : ℚ) :
    classifyLevel S = BelowAverage ↔ 50 ≤ S ∧ S < 60 := by
  unfold classifyLevel
  split_ifs with h1 h2 h3 h4 <;> constructor <;> intro h <;>
    first
      | rfl
      | linarith
      | exact ⟨by linarith, by linarith⟩
      | (exfalso; rcases h with ⟨h5, h6⟩; linarith)
      | (exfalso; linarith)
      | simp at h

lemma classifyLevel_eq_poor_iff (S : ℚ) :
    classifyLevel S = Poor ↔ S < 50 := by
  unfold classifyLevel
  split_ifs with h1 h2 h3 h4 <;> constructor <;> intro h <;>
    first
      | rfl
      | linarith
      | exact ⟨by linarith, by linarith⟩
      | (exfalso; rcases h with ⟨h5, h6⟩; linarith)
      | (exfalso; linarith)
      | simp at h

/-- C1: for quiz_score and attendance in [0,100] the classifier assigns the
level by the composite score `S = 0.6*quiz_score + 0.4*attendance`, with
buckets closed on the lower bound: `S ≥ 80 → Excellent`,
`70 ≤ S < 80 → Good`, `60 ≤ S < 70 → Average`, `50 ≤ S < 60 → BelowAverage`,
`S < 50 → Poor`; being a total function, the classifier assigns exactly one
level per input. -/
theorem classify_bucket_correct (q a : ℚ)
    (hq0 : 0 ≤ q) (hq1 : q ≤ 100) (ha0 : 0 ≤ a) (ha1 : a ≤ 100) :
    (classifyLevelOf q a = Excellent ↔ 80 ≤ compositeScore q a) ∧
    (classifyLevelOf q a = Good ↔
      70 ≤ compositeScore q a ∧ compositeScore q a < 80) ∧
    (classifyLevelOf q a = Average ↔
      60 ≤ compositeScore q a ∧ compositeScore q a < 70) ∧
    (classifyLevelOf q a = BelowAverage ↔
      50 ≤ compositeScore q a ∧ compositeScore q a < 60) ∧
    (classifyLevelOf q a = Poor ↔ compositeScore q a < 50) := by
  exact ⟨classifyLevel_eq_excellent_iff _, classifyLevel_eq_good_iff _,
    classifyLevel_eq_average_iff _, classifyLevel_eq_belowAverage_iff _,
    classifyLevel_eq_poor_iff _⟩

/-- Witness for C1 at quiz_score = 90, attendance = 70 (composite score 82,
level Excellent). -/
theorem classify_bucket_correct_witness :
    (classifyLevelOf 90 70 = Excellent ↔ 80 ≤ compositeScore 90 70) ∧
    (classifyLevelOf 90 70 = Good ↔
      70 ≤ compositeScore 90 70 ∧ compositeScore 90 70 < 80) ∧
    (classifyLevelOf 90 70 = Average ↔
      60 ≤ compositeScore 90 70 ∧ compositeScore 90 70 < 70) ∧
    (classifyLevelOf 90 70 = BelowAverage ↔
      50 ≤ compositeScore 90 70 ∧ compositeScore 90 70 < 60) ∧
    (classifyLevelOf 90 70 = Poor ↔ compositeScore 90 70 < 50) :=
  classify_bucket_correct 90 70 (by decide) (by decide) (by decide)
    (by decide)

/-- Learning-gap types (spec §3). -/
inductive GapType
  | LowQuizScore
  | LowAttendance
deriving DecidableEq, Repr

/-- Gap severities (spec §3). -/
inductive Severity
  | High
  | Medium
deriving DecidableEq, Repr

/-- A typed, severity-ranked learning gap (spec §3). -/
structure LearningGap where
  gapType : GapType
  severity : Severity
  description : String
deriving DecidableEq, Repr

/-- Modelled from the spec: `identify_gaps` of §4.3 / README ("Low Quiz
Score (<60%), Low Attendance (<75%), Severity classification High/Medium");
the backend gap-identifier source is absent from the snapshot.  The two
rules fire independently: quiz_score < 60 emits LowQuizScore (High when
quiz_score < 40, else Medium) and attendance < 75 emits LowAttendance (High
when attendance < 50, else Medium). -/
def identify_gaps (quiz_score attendance : ℚ) : List LearningGap :=
  (if quiz_score < 60 then
    [{ gapType := GapType.LowQuizScore
       severity := if quiz_score < 40 then Severity.High else Severity.Medium
       description := "Quiz scores are below the expected threshold" }]
   else []) ++
  (if attendance < 75 then
    [{ gapType := GapType.LowAttendance
       severity := if attendance < 50 then Severity.High else Severity.Medium
       description := "Attendance is below the expected threshold" }]
   else [])

/-- The gap rules of spec §4.3 as a predicate on inputs: each gap type is
emitted exactly when its threshold is violated, severities follow the 40/50
sub-thresholds, and the result has no duplicate gap types. -/
def gapRulesHold (q a : ℚ) : Prop :=
  ((∃ g ∈ identify_gaps q a, g.gapType = GapType.LowQuizScore) ↔ q < 60) ∧
  ((∃ g ∈ identify_gaps q a, g.gapType = GapType.LowAttendance) ↔ a < 75) ∧
  (∀ g ∈ identify_gaps q a, g.gapType = GapType.LowQuizScore →
    (g.severity = Severity.High ↔ q < 40)) ∧
  (∀ g ∈ identify_gaps q a, g.gapType = GapType.LowAttendance →
    (g.severity = Severity.High ↔ a < 50)) ∧
  (identify_gaps q a).Pairwise (fun g1 g2 => g1.gapType ≠ g2.gapType)

/-- C2: `identify_gaps` emits LowQuizScore exactly when quiz_score < 60
(High below 40, else Medium) and LowAttendance exactly when attendance < 75
(High below 50, else Medium), independently, with no duplicate gap types;
`identify_gaps 35 40` yields both gaps at severity High and
`identify_gaps 70 90` yields the empty set. -/
theorem identify_gaps_correct (q a : ℚ) :
    gapRulesHold q a ∧
    (identify_gaps 35 40).map (fun g => (g.gapType, g.severity)) =
      [(GapType.LowQuizScore, Severity.High),
       (GapType.LowAttendance, Severity.High)] ∧
    identify_gaps 70 90 = [] := by
  refine ⟨⟨?_, ?_, ?_, ?_, ?_⟩, by decide, by decide⟩ <;>
    by_cases hq : q < 60 <;> by_cases ha : a < 75 <;>
      simp [identify_gaps, hq, ha] <;> split_ifs <;> simp_all <;> linarith

/-- Witness for C2 at quiz_score = 35, attendance = 40. -/
theorem identify_gaps_correct_witness : gapRulesHold 35 40 :=
  (identify_gaps_correct 35 40).1

/-- Recommendation types (spec §3). -/
inductive RecType
  | action_plan
  | resources
  | study_tips
  | motivational
deriving DecidableEq, Repr

/-- Recommendation priorities (spec §3). -/
inductive RecPriority
  | high
  | medium
  | low
deriving DecidableEq, Repr

/-- A structured recommendation (spec §3). -/
structure Recommendation where
  recType : RecType
  priority : RecPriority
  title : String
  description : String
  action_items : List String
deriving DecidableEq, Repr

/-- Rank of a priority, highest first (spec §3: ordering is
priority-descending). -/
def priorityRank : RecPriority → Nat
  | RecPriority.high => 0
  | RecPriority.medium => 1
  | RecPriority.low => 2

/-- The fixed type precedence used as tie-break (spec §3:
action_plan > resources > study_tips > motivational). -/
def typePrecedence : RecType → Nat
  | RecType.action_plan => 0
  | RecType.resources => 1
  | RecType.study_tips => 2
  | RecType.motivational => 3

/-- The sort order on recommendations: priority descending, ties broken by
the fixed type precedence. -/
def recLE (x y : Recommendation) : Prop :=
  priorityRank x.priority < priorityRank y.priority ∨
    (priorityRank x.priority = priorityRank y.priority ∧
      typePrecedence x.recType ≤ typePrecedence y.recType)

instance : DecidableRel recLE := fun x y =>
  inferInstanceAs (Decidable
    (priorityRank x.priority < priorityRank y.priority ∨
      (priorityRank x.priority = priorityRank y.priority ∧
        typePrecedence x.recType ≤ typePrecedence y.recType)))

instance : IsTotal Recommendation recLE :=
  ⟨fun x y => by unfold recLE; omega⟩

instance : IsTrans Recommendation recLE :=
  ⟨fun x y z hxy hyz => by unfold recLE at hxy hyz ⊢; omega⟩

/-- Modelled from the spec: the per-gap `action_plan` recommendation of
§4.4 (gap-type-specific tactics; priority high exactly for High-severity
gaps); the backend recommendation-engine source is absent from the
snapshot. -/
def gapActionPlan (subject : String) (g : LearningGap) : Recommendation :=
  { recType := RecType.action_plan
    priority := if g.severity = Severity.High then RecPriority.high
      else RecPriority.medium
    title := match g.gapType with
      | GapType.LowQuizScore => "Improve quiz performance in " ++ subject
      | GapType.LowAttendance => "Improve attendance in " ++ subject
    description := match g.gapType with
      | GapType.LowQuizScore => "Targeted practice and review"
      | GapType.LowAttendance => "Consistency in class participation"
    action_items := match g.gapType with
      | GapType.LowQuizScore =>
        ["Review past quizzes", "Practice problems daily"]
      | GapType.LowAttendance =>
        ["Attend every class", "Set a consistent schedule"] }

/-- Modelled from the spec: the always-emitted `motivational`
recommendation of §4.4, tone depending on the level, always priority
medium. -/
def motivationalRec (level : PerformanceLevel) : Recommendation :=
  { recType := RecType.motivational
    priority := RecPriority.medium
    title := "Stay motivated"
    description := match level with
      | Poor | BelowAverage => "Keep going, steady effort will pay off"
      | Average => "You are on track, keep building momentum"
      | Good | Excellent => "Great work, aim for the next stretch goal"
    action_items := ["Set a small weekly goal"] }

/-- Modelled from the spec: the `resources` recommendation of §4.4,
escalated to priority high when the level is Poor. -/
def resourcesRec (level : PerformanceLevel) (subject : String) :
    Recommendation :=
  { recType := RecType.resources
    priority := if level = Poor then RecPriority.high else RecPriority.medium
    title := "Recommended resources for " ++ subject
    description := "Curated materials matched to the subject"
    action_items := ["Use the textbook chapter summaries",
      "Watch topic videos"] }

/-- Modelled from the spec: the `study_tips` recommendation of §4.4,
escalated to priority high when the level is Poor. -/
def studyTipsRec (level : PerformanceLevel) : Recommendation :=
  { recType := RecType.study_tips
    priority := if level = Poor then RecPriority.high else RecPriority.medium
    title := "Effective study techniques"
    description := "General technique guidance"
    action_items := ["Use spaced repetition", "Self-test after each session"] }

/-- Modelled from the spec: `recommend` of §4.4 — one `action_plan` item
per gap, plus exactly one `motivational`, one `resources` and one
`study_tips` item, sorted by priority descending with the fixed type
precedence as tie-break. -/
def recommend (level : PerformanceLevel) (gaps : List LearningGap)
    (subject : String) : List Recommendation :=
  List.insertionSort recLE
    (gaps.map (gapActionPlan subject) ++
      [motivationalRec level, resourcesRec level subject,
        studyTipsRec level])

/-- C3: for every level, gap set and subject the output of `recommend` is
sorted by priority descending with ties broken by the fixed type precedence
(the order `recLE`), and with no gaps it consists of exactly 3
recommendations of types resources, study_tips and motivational (in that
sorted order). -/
theorem recommend_sorted (level : PerformanceLevel)
    (gaps : List LearningGap) (subject : String) :
    List.Sorted recLE (recommend level gaps subject) ∧
    (recommend level [] subject).map (fun r => r.recType) =
      [RecType.resources, RecType.study_tips, RecType.motivational] ∧
    (recommend level [] subject).length = 3 := by
  refine ⟨?_, ?_, ?_⟩
  · unfold recommend
    exact List.sorted_insertionSort recLE _
  · cases level <;> rfl
  · cases level <;> rfl

/-- Witness for C3 at level Poor, no gaps, subject Mathematics. -/
theorem recommend_sorted_witness :
    List.Sorted recLE (recommend Poor [] "Mathematics") ∧
    (recommend Poor [] "Mathematics").map (fun r => r.recType) =
      [RecType.resources, RecType.study_tips, RecType.motivational] ∧
    (recommend Poor [] "Mathematics").length = 3 :=
  ⟨(recommend_sorted Poor [] "Mathematics").1,
    (recommend_sorted Poor [] "Mathematics").2.1,
    (recommend_sorted Poor [] "Mathematics").2.2⟩

/-- One week of the study plan (spec §3). -/
structure WeekGoal where
  week : Nat
  goals : List Recommendation
deriving DecidableEq, Repr

/-- A 4-week study plan (spec §3). -/
structure StudyPlan where
  duration_weeks : Nat
  weekly_goals : List WeekGoal
deriving DecidableEq, Repr

/-- Modelled from the spec: the round-robin distribution of §4.5 (the
backend study-plan-builder source is absent from the snapshot).  The goals
of week `w + 1` are the recommendations at 0-based positions congruent to
`w` modulo 4, in their original order. -/
def goalsForAux (w : Nat) : Nat → List Recommendation → List Recommendation
  | _, [] => []
  | i, r :: rs =>
    if i % 4 = w then r :: goalsForAux w (i + 1) rs
    else goalsForAux w (i + 1) rs

def goalsFor (recs : List Recommendation) (w : Nat) : List Recommendation :=
  goalsForAux w 0 recs

/-- Modelled from the spec: `build_plan` of §4.5 — always 4 weeks numbered
1..4, recommendations distributed round-robin by priority-sorted input
order; an empty input yields 4 weeks with empty goals. -/
def build_plan (recs : List Recommendation) : StudyPlan :=
  { duration_weeks := 4
    weekly_goals := (List.range 4).map
      (fun w => { week := w + 1, goals := goalsFor recs w }) }

lemma mem_goalsForAux (w : Nat) (l : List Recommendation) :
    ∀ (start i : Nat) (h : i < l.length), (start + i) % 4 = w →
      l[i] ∈ goalsForAux w start l := by
  induction l with
  | nil => intro start i h _; simp at h
  | cons r rs ih =>
    intro start i h hw
    cases i with
    | zero =>
      unfold goalsForAux
      rw [if_pos (by omega)]
      exact List.mem_cons_self _ _
    | succ i =>
      have hi : i < rs.length := by simpa using h
      have hmem : rs[i] ∈ goalsForAux w (start + 1) rs :=
        ih (start + 1) i hi (by omega)
      unfold goalsForAux
      rw [List.getElem_cons_succ]
      split
      · exact List.mem_cons_of_mem _ hmem
      · exact hmem

lemma mem_goalsFor (recs : List Recommendation) (i : Nat)
    (h : i < recs.length) : recs[i] ∈ goalsFor recs (i % 4) :=
  mem_goalsForAux (i % 4) recs 0 i h (by omega)

/-- C4: `build_plan` returns duration_weeks = 4 and exactly 4 weeks
numbered 1..4 in increasing order; the recommendation at 0-based position
`i` lands in the week numbered `i % 4 + 1`; 6 recommendations are split as
week 1 = positions 1 and 5, week 2 = 2 and 6, week 3 = 3, week 4 = 4
(1-based); the empty input yields 4 weeks with empty goals rather than an
error. -/
theorem build_plan_round_robin (recs : List Recommendation) (i : Nat)
    (h : i < recs.length) (r1 r2 r3 r4 r5 r6 : Recommendation) :
    (build_plan recs).duration_weeks = 4 ∧
    (build_plan recs).weekly_goals.map (fun wg => wg.week) = [1, 2, 3, 4] ∧
    (∃ wg ∈ (build_plan recs).weekly_goals,
      wg.week = i % 4 + 1 ∧ recs[i] ∈ wg.goals) ∧
    (build_plan [r1, r2, r3, r4, r5, r6]).weekly_goals.map
      (fun wg => wg.goals) = [[r1, r5], [r2, r6], [r3], [r4]] ∧
    (build_plan []).weekly_goals.map (fun wg => wg.goals) =
      [[], [], [], []] := by
  refine ⟨rfl, rfl, ?_, rfl, rfl⟩
  refine ⟨⟨i % 4 + 1, goalsFor recs (i % 4)⟩, ?_, rfl, ?_⟩
  · simp only [build_plan]
    exact List.mem_map.mpr ⟨i % 4, List.mem_range.mpr (by omega), rfl⟩
  · exact mem_goalsFor recs i h

/-- Witness for C4 with a singleton input at position 0 and six copies of
the motivational recommendation. -/
theorem build_plan_round_robin_witness :
    (build_plan [motivationalRec Poor]).duration_weeks = 4 ∧
    (build_plan [motivationalRec Poor]).weekly_goals.map
      (fun wg => wg.week) = [1, 2, 3, 4] ∧
    (∃ wg ∈ (build_plan [motivationalRec Poor]).weekly_goals,
      wg.week = 0 % 4 + 1 ∧ [motivationalRec Poor][0] ∈ wg.goals) ∧
    (build_plan [motivationalRec Poor, motivationalRec Poor,
      motivationalRec Poor, motivationalRec Poor, motivationalRec Poor,
      motivationalRec Poor]).weekly_goals.map (fun wg => wg.goals) =
      [[motivationalRec Poor, motivationalRec Poor],
       [motivationalRec Poor, motivationalRec Poor],
       [motivationalRec Poor], [motivationalRec Poor]] ∧
    (build_plan []).weekly_goals.map (fun wg => wg.goals) =
      [[], [], [], []] :=
  build_plan_round_robin [motivationalRec Poor] 0 (by decide)
    (motivationalRec Poor) (motivationalRec Poor) (motivationalRec Poor)
    (motivationalRec Poor) (motivationalRec Poor) (motivationalRec Poor)

/-- Modelled from the spec: the distance of the composite score from the
nearest bucket boundary (boundaries 50, 60, 70, 80 of §4.2). -/
def nearestBoundaryDist (S : ℚ) : ℚ :=
  min (min |S - 50| |S - 60|) (min |S - 70| |S - 80|)

/-- Modelled from the spec: the confidence curve of §4.2 — a monotonically
increasing function of the boundary distance clamped to [0.5, 0.99].  The
spec leaves the exact curve open (§9 treats it as a calibration parameter);
a linear ramp of slope 1/20 from 0.5, clamped at 0.99, realises the stated
contract. -/
def confidenceOfDist (d : ℚ) : ℚ :=
  min (99 / 100) (1 / 2 + d / 20)

/-- The confidence the classifier reports for raw inputs. -/
def classifyConfidence (quiz_score attendance : ℚ) : ℚ :=
  confidenceOfDist (nearestBoundaryDist (compositeScore quiz_score attendance))

lemma nearestBoundaryDist_nonneg (S : ℚ) : 0 ≤ nearestBoundaryDist S :=
  le_min (le_min (abs_nonneg _) (abs_nonneg _))
    (le_min (abs_nonneg _) (abs_nonneg _))

/-- C5: for quiz_score and attendance in [0,100] the reported confidence
lies in [0.5, 0.99], and confidence is monotone in the distance of the
composite score from the nearest bucket boundary: an input whose composite
score is at least as far from every boundary gets at least as much
confidence. -/
theorem classify_confidence_bounds (q a q2 a2 : ℚ)
    (hq0 : 0 ≤ q) (hq1 : q ≤ 100) (ha0 : 0 ≤ a) (ha1 : a ≤ 100)
    (hmono : nearestBoundaryDist (compositeScore q a) ≤
      nearestBoundaryDist (compositeScore q2 a2)) :
    1 / 2 ≤ classifyConfidence q a ∧
    classifyConfidence q a ≤ 99 / 100 ∧
    classifyConfidence q a ≤ classifyConfidence q2 a2 := by
  have hd : 0 ≤ nearestBoundaryDist (compositeScore q a) :=
    nearestBoundaryDist_nonneg _
  refine ⟨?_, ?_, ?_⟩
  · exact le_min (by norm_num) (by linarith)
  · exact min_le_left _ _
  · exact min_le_min le_rfl (by linarith)

/-- Witness for C5 at (90, 70). -/
theorem classify_confidence_bounds_witness :
    1 / 2 ≤ classifyConfidence 90 70 ∧
    classifyConfidence 90 70 ≤ 99 / 100 ∧
    classifyConfidence 90 70 ≤ classifyConfidence 90 70 :=
  classify_confidence_bounds 90 70 90 70 (by decide) (by decide) (by decide)
    (by decide) le_rfl

/-! JavaScript strings are modelled as `List Char` wherever a proof needs
to evaluate `trim` or `toUpperCase`: the builtin `String` functions are
irreducible in the kernel, while the character-list transforms below
compute. -/

/-- The two-sided whitespace trim of JavaScript `String.prototype.trim`. -/
def trimChars (s : List Char) : List Char :=
  ((s.dropWhile Char.isWhitespace).reverse.dropWhile Char.isWhitespace).reverse

/-- JavaScript `String.prototype.toUpperCase`, restricted to the ASCII
letters that appear in student ids. -/
def upperChars (s : List Char) : List Char :=
  s.map Char.toUpper

/-- Outcome of the login submit handler: the normalized id written to
localStorage and passed to `onLogin`, or the error message set instead
(`src/frontend/src/pages/Login.jsx`, `handleSubmit`). -/
structure LoginOutcome where
  stored : Option (List Char)
  errorMsg : Option String
deriving DecidableEq, Repr

/-- Embedding of `handleSubmit` in `Login.jsx` (lines 13-44): an input
that is empty after trimming sets the error and stores nothing; otherwise
the trimmed, uppercased id is stored in localStorage and passed to
`onLogin`. -/
def handleLoginSubmit (studentId : List Char) : LoginOutcome :=
  if trimChars studentId = [] then
    { stored := none, errorMsg := some "Please enter a Student ID" }
  else
    { stored := some (upperChars (trimChars studentId)), errorMsg := none }

/-- C6: a login submission whose student-id input is non-empty after
trimming stores exactly the trimmed, uppercased input (the same value is
passed to `onLogin`); an empty or whitespace-only input stores nothing and
sets the error message instead. -/
theorem login_submit_normalizes (s : List Char) :
    (trimChars s ≠ [] → handleLoginSubmit s =
      { stored := some (upperChars (trimChars s)), errorMsg := none }) ∧
    (trimChars s = [] → handleLoginSubmit s =
      { stored := none,
        errorMsg := some "Please enter a Student ID" }) := by
  constructor <;> intro h <;> simp [handleLoginSubmit, h]

/-- Witness for C6: the input " stu001" is stored as STU001. -/
theorem login_submit_normalizes_witness :
    handleLoginSubmit [' ', 's', 't', 'u', '0', '0', '1'] =
      { stored := some ['S', 'T', 'U', '0', '0', '1'], errorMsg := none } :=
  (login_submit_normalizes [' ', 's', 't', 'u', '0', '0', '1']).1 (by decide)

/-- The optional query inputs of `getRecommendations` (`api.js`): `none`
is JavaScript `undefined`. -/
structure RecommendationOptions where
  subject : Option String
  quiz_score : Option ℚ
  attendance : Option ℚ
deriving DecidableEq, Repr

/-- Embedding of the `URLSearchParams` construction in `getRecommendations`
(`api.js` lines 32-46): `subject` is appended exactly when truthy (present
and non-empty, JavaScript truthiness of a string), `quiz_score` and
`attendance` exactly when not `undefined`. -/
def recommendationParams (o : RecommendationOptions) :
    List (String × String) :=
  (match o.subject with
    | some s => if s = "" then [] else [("subject", s)]
    | none => []) ++
  (match o.quiz_score with
    | some q => [("quiz_score", toString q)]
    | none => []) ++
  (match o.attendance with
    | some a => [("attendance", toString a)]
    | none => [])

/-- Rendering of `URLSearchParams.toString` (percent-encoding elided: the
parameter names and numeric values in play contain no reserved
characters). -/
def renderQuery (ps : List (String × String)) : String :=
  String.intercalate "&" (ps.map (fun p => p.1 ++ "=" ++ p.2))

/-- Embedding of the URL built by `getRecommendations` (`api.js` line 39):
the query string is attached only when at least one parameter was
appended. -/
def getRecommendationsUrl (studentId : String)
    (o : RecommendationOptions) : String :=
  "/recommendations/" ++ studentId ++
    (if recommendationParams o = [] then ""
     else "?" ++ renderQuery (recommendationParams o))

/-- C7: the request URL is `/recommendations/[studentId]` and carries a
query parameter exactly for each supplied option — `subject` iff truthy,
`quiz_score` and `attendance` iff not undefined (so 0 is sent) — and with
no options the URL has no query string. -/
theorem getRecommendations_url_params (sid : String)
    (o : RecommendationOptions) :
    ((∃ v, ("subject", v) ∈ recommendationParams o) ↔
      ∃ s, o.subject = some s ∧ s ≠ "") ∧
    ((∃ v, ("quiz_score", v) ∈ recommendationParams o) ↔
      o.quiz_score ≠ none) ∧
    ((∃ v, ("attendance", v) ∈ recommendationParams o) ↔
      o.attendance ≠ none) ∧
    (∃ v, ("quiz_score", v) ∈ recommendationParams
      { subject := none, quiz_score := some 0, attendance := none }) ∧
    getRecommendationsUrl sid
      { subject := none, quiz_score := none, attendance := none } =
      "/recommendations/" ++ sid := by
  obtain ⟨subj, qs, att⟩ := o
  refine ⟨?_, ?_, ?_,
    ⟨toString (0 : ℚ), by simp [recommendationParams]⟩,
    by simp [getRecommendationsUrl, recommendationParams,
      String.append_empty]⟩ <;>
    cases subj <;> cases qs <;> cases att <;>
      simp [recommendationParams] <;> split_ifs <;> simp_all

/-- Witness for C7 with quiz_score = 0 and no other option. -/
theorem getRecommendations_url_params_witness :
    ((∃ v, ("subject", v) ∈ recommendationParams
        { subject := none, quiz_score := some 0, attendance := none }) ↔
      ∃ s, (none : Option String) = some s ∧ s ≠ "") ∧
    ((∃ v, ("quiz_score", v) ∈ recommendationParams
        { subject := none, quiz_score := some 0, attendance := none }) ↔
      (some (0 : ℚ)) ≠ none) ∧
    ((∃ v, ("attendance", v) ∈ recommendationParams
        { subject := none, quiz_score := some 0, attendance := none }) ↔
      (none : Option ℚ) ≠ none) ∧
    (∃ v, ("quiz_score", v) ∈ recommendationParams
      { subject := none, quiz_score := some 0, attendance := none }) ∧
    getRecommendationsUrl "STU001"
      { subject := none, quiz_score := none, attendance := none } =
      "/recommendations/" ++ "STU001" :=
  getRecommendations_url_params "STU001"
    { subject := none, quiz_score := some 0, attendance := none }

/-- The JSON body posted to `/chatbot` (`api.js` lines 53-57): exactly the
three fields, optional values sent as null (`none`). -/
structure ChatRequestBody where
  message : String
  student_id : Option String
  student_context : Option String
deriving DecidableEq, Repr

/-- The `/chatbot` response body; the caller reads the reply from its
`response` field. -/
structure ChatResponse where
  response : String
deriving DecidableEq, Repr

/-- Embedding of the body construction in `chatWithBot` (`api.js`): the
JavaScript defaults `studentId = null`, `studentContext = null` make an
omitted argument `none`. -/
def chatBody (message : String) (studentId studentContext : Option String) :
    ChatRequestBody :=
  { message := message
    student_id := studentId
    student_context := studentContext }

/-- Embedding of `chatWithBot` (`api.js` lines 51-63) over an abstract
transport `post`: on success the response data is returned unchanged; the
catch block only logs and rethrows, so the call is the transport applied
to the body. -/
def chatWithBot (message : String) (studentId studentContext : Option String)
    (post : ChatRequestBody → Except String ChatResponse) :
    Except String ChatResponse :=
  post (chatBody message studentId studentContext)

/-- C8: the `/chatbot` body has exactly the fields message, student_id and
student_context, an omitted id or context is sent as null (`none`) rather
than failing, and on success the response body is returned unchanged. -/
theorem chatWithBot_body_fields (message : String) (sid ctx : Option String)
    (post : ChatRequestBody → Except String ChatResponse)
    (r : ChatResponse) :
    (chatBody message sid ctx).message = message ∧
    (chatBody message sid ctx).student_id = sid ∧
    (chatBody message sid ctx).student_context = ctx ∧
    (chatBody message none none).student_id = none ∧
    (chatBody message none none).student_context = none ∧
    chatWithBot message sid ctx post = post (chatBody message sid ctx) ∧
    (post (chatBody message sid ctx) = Except.ok r →
      chatWithBot message sid ctx post = Except.ok r) :=
  ⟨rfl, rfl, rfl, rfl, rfl, rfl, fun h => h⟩

/-- A transport that always succeeds with the reply "hi"; used by the C8
witness. -/
def okTransport : ChatRequestBody → Except String ChatResponse :=
  fun _ => Except.ok { response := "hi" }

/-- Witness for C8 with an always-succeeding transport. -/
theorem chatWithBot_body_fields_witness :
    (chatBody "hello" none none).message = "hello" ∧
    (chatBody "hello" none none).student_id = none ∧
    (chatBody "hello" none none).student_context = none ∧
    (chatBody "hello" none none).student_id = none ∧
    (chatBody "hello" none none).student_context = none ∧
    chatWithBot "hello" none none okTransport =
      okTransport (chatBody "hello" none none) ∧
    (okTransport (chatBody "hello" none none) =
        Except.ok { response := "hi" } →
      chatWithBot "hello" none none okTransport =
        Except.ok { response := "hi" }) :=
  chatWithBot_body_fields "hello" none none okTransport { response := "hi" }

/-- The `/health` response body (`api.js`). -/
structure HealthStatus where
  status : String
deriving DecidableEq, Repr

/-- Embedding of `healthCheck` (`api.js` lines 81-89): the result of the
underlying GET is either a body or an error; the catch swallows every
error and returns status "unhealthy", so the function is total — it never
rejects. -/
def healthCheck (result : Except String HealthStatus) : HealthStatus :=
  match result with
  | Except.ok h => h
  | Except.error _ => { status := "unhealthy" }

/-- Embedding of `checkBackendConnection` in the Dashboard
(`src/unnamed/part_005` lines 31-39): the connected flag is the comparison
of the returned status with "healthy". -/
def checkBackendConnection (result : Except String HealthStatus) : Bool :=
  (healthCheck result).status == "healthy"

/-- C9: `healthCheck` returns an object for every outcome of the request —
on failure the object is status "unhealthy" instead of a propagated error —
and the backendConnected flag of the Dashboard is true exactly when the
returned status equals "healthy". -/
theorem healthCheck_never_rejects (r : Except String HealthStatus)
    (e : String) :
    healthCheck (Except.error e) = { status := "unhealthy" } ∧
    (checkBackendConnection r = true ↔
      (healthCheck r).status = "healthy") := by
  refine ⟨rfl, ?_⟩
  simp [checkBackendConnection]

/-- Witness for C9 at a failed request. -/
theorem healthCheck_never_rejects_witness :
    healthCheck (Except.error "network down") = { status := "unhealthy" } ∧
    (checkBackendConnection (Except.error "network down") = true ↔
      (healthCheck (Except.error "network down")).status = "healthy") :=
  healthCheck_never_rejects (Except.error "network down") "network down"

/-- One entry of the chatbot widget message list
(`src/unnamed/part_004`). -/
structure ChatMessage where
  role : String
  content : String
deriving DecidableEq, Repr

/-- The widget state touched by `handleSendMessage`: the message list, the
text field, and the in-flight flag. -/
structure ChatWidgetState where
  messages : List ChatMessage
  inputMessage : List Char
  isLoading : Bool
deriving DecidableEq, Repr

/-- The fixed apology the widget shows when `chatWithBot` rejects
(`src/unnamed/part_004` lines 45-52). -/
def apologyReply : String :=
  "I\x27m sorry, I encountered an error. Please try again later."

/-- Embedding of `handleSendMessage` (`src/unnamed/part_004` lines 26-56)
as a state transformer: the Boolean records whether a request was sent.
An empty-after-trim input or an in-flight request leaves the state
unchanged; otherwise the trimmed user message and then exactly one
assistant message are appended, the input is cleared and loading ends.
The try/catch makes the handler total: a rejected `chatWithBot` produces
the apology message instead of an exception. -/
def handleSendMessage (st : ChatWidgetState)
    (chatResult : Except String ChatResponse) : ChatWidgetState × Bool :=
  if trimChars st.inputMessage = [] ∨ st.isLoading then (st, false)
  else
    let userMessage := String.mk (trimChars st.inputMessage)
    let reply := match chatResult with
      | Except.ok r => r.response
      | Except.error _ => apologyReply
    ({ messages := st.messages ++
        [{ role := "user", content := userMessage },
         { role := "assistant", content := reply }]
       inputMessage := []
       isLoading := false }, true)

/-- C10: when the trimmed input is empty or a request is in flight the
state is unchanged and no request is sent; otherwise exactly one user
message (the trimmed input) and then exactly one assistant message are
appended, and a rejected `chatWithBot` yields the fixed apology text as
that assistant message.  Totality of `handleSendMessage` is the
never-throws guarantee. -/
theorem handleSendMessage_behaviour (st : ChatWidgetState)
    (res : Except String ChatResponse) (e : String) :
    (trimChars st.inputMessage = [] ∨ st.isLoading = true →
      handleSendMessage st res = (st, false)) ∧
    (trimChars st.inputMessage ≠ [] → st.isLoading = false →
      handleSendMessage st res =
        ({ messages := st.messages ++
            [{ role := "user",
               content := String.mk (trimChars st.inputMessage) },
             { role := "assistant",
               content := match res with
                 | Except.ok r => r.response
                 | Except.error _ => apologyReply }]
           inputMessage := []
           isLoading := false }, true)) ∧
    (trimChars st.inputMessage ≠ [] → st.isLoading = false →
      (handleSendMessage st (Except.error e)).1.messages.getLast? =
        some { role := "assistant", content := apologyReply }) := by
  refine ⟨fun h => ?_, fun h1 h2 => ?_, fun h1 h2 => ?_⟩
  · simp only [handleSendMessage]
    rw [if_pos (by simpa using h)]
  · simp only [handleSendMessage]
    rw [if_neg (by simp [h1, h2])]
  · simp only [handleSendMessage]
    rw [if_neg (by simp [h1, h2])]
    simp

/-- Witness for C10: input "hi", idle widget, failing request. -/
theorem handleSendMessage_behaviour_witness :
    handleSendMessage
        { messages := [], inputMessage := ['h', 'i'], isLoading := false }
        (Except.error "boom") =
      ({ messages :=
          [{ role := "user", content := String.mk ['h', 'i'] },
           { role := "assistant", content := apologyReply }]
         inputMessage := []
         isLoading := false }, true) :=
  (handleSendMessage_behaviour
      { messages := [], inputMessage := ['h', 'i'], isLoading := false }
      (Except.error "boom") "boom").2.1 (by decide) rfl

end LearningAssistant
